import Mathlib

/-!
Verification development for the GoD-ChatAgent-Server repository.

The development shallowly embeds the two algorithmic cores of the
repository:

* the provider matcher of src/app/utils/agent_tools.py
  (get_geeks_from_user_issue): skill-hierarchy resolution, the skill
  filter, and the aggregation pipeline that attaches human-readable
  skill names;

* the websocket conversation handler of src/app/api.py (the chat
  coroutine): the per-conversation confirmation state machine, the
  terminal handoff (transcript build, extraction, persistence,
  matching), and the continuation protocol.

MongoDB collections are embedded as Lists of documents in the
collection's native order; find_one is List.find?, a $match stage is
List.filter, $lookup against a foreign _id is a filter of the foreign
collection in its native order, and $arrayElemAt 0 is List.head?.
Object identifiers are Nat.  External collaborators (the LLM dialogue
chain, the LLM extractor completion, the data-access layer's
environmental failures) are oracle parameters of the step function.
-/

namespace GoD

/-! Python string helpers used by the handler and by claim statements. -/

/-- Lowercasing of a string as Python str.lower does on the ASCII range
(the handler only ever compares against the ASCII literal "yes";
api.py line 158). -/
def pyLower (s : String) : String := String.mk (s.data.map Char.toLower)

/-- ASCII whitespace test, used to state what trimming surrounding
whitespace would do.  The handler itself never trims. -/
def isSpaceChar (c : Char) : Bool := c = ' ' || c = '\t' || c = '\n' || c = '\r'

/-- Trimming of surrounding whitespace as Python str.strip does (claim-side
notion: the handler at api.py line 158 does not trim). -/
def pyStrip (s : String) : String :=
  String.mk (((s.data.dropWhile isSpaceChar).reverse.dropWhile isSpaceChar).reverse)

/-- Python truthiness of an optional string: None and the empty string are
falsy, every other string is truthy. -/
def truthyOptStr : Option String → Bool
  | none => false
  | some s => decide (s ≠ "")

/-! Provider directory data model, from src/app/utils/agent_tools.py and
src/app/models.  The matcher reads only the _id and title fields of
category and subcategory documents, so one document shape serves both
collections. -/

/-- A document of the categories or subcategories collection, restricted to
the fields the matcher reads: _id and title. -/
structure SkillDoc where
  id : Nat
  title : String
deriving DecidableEq, Repr

/-- A document of the geeks collection, restricted to the fields the
matcher's filter and pipeline read: _id, primarySkill, secondarySkills.
The remaining projected fields (fullName, email, ...) are passthrough
identity data no claim mentions. -/
structure GeekDoc where
  id : Nat
  primarySkill : Option Nat
  secondarySkills : List Nat
deriving DecidableEq, Repr

/-- AggregatedGeekOutput (agent_tools.py lines 15-17 and the $project stage
at lines 270-295): the matcher's per-candidate output.  The $project stage
keeps primarySkill and adds the denormalized names; it does not keep
secondarySkills. -/
structure AggregatedGeekOutput where
  id : Nat
  primarySkill : Option Nat
  primarySkillName : Option String
  secondarySkillsNames : List String
deriving DecidableEq, Repr

/-- The document database as the matcher sees it: the three collections it
touches, each in its native storage order. -/
structure DB where
  categories : List SkillDoc
  subcategories : List SkillDoc
  geeks : List GeekDoc
deriving DecidableEq, Repr

/-- The categoryDetails sub-object of a structured issue (spec section 3);
read by the matcher at agent_tools.py lines 186-199. -/
structure CategoryDetails where
  category : Option String
  subcategory : Option String
deriving DecidableEq, Repr

/-- The structured issue as the matcher consumes it.  Only category_details
is read by get_geeks_from_user_issue.  The field is modelled from the spec
(section 3, categoryDetails): src/app/models/user_issue_model.py omits it
from UserIssueInDB even though agent_tools.py line 186 reads it. -/
structure UserIssueInDB where
  category_details : Option CategoryDetails
deriving DecidableEq, Repr

/-- The skill_ids accumulation of get_geeks_from_user_issue
(agent_tools.py lines 185-199): resolve the category title against the
categories collection, then, when a subcategory name is present, non-empty
and different from the category name, resolve it against the subcategories
collection; names that do not resolve contribute nothing.  The whole block
is guarded by Python truthiness of category_details and of its category
field, so nothing at all is resolved when the category name is absent or
empty. -/
def skillIds (db : DB) (issue : UserIssueInDB) : List Nat :=
  match issue.category_details with
  | none => []
  | some cd =>
      match cd.category with
      | none => []
      | some categoryName =>
          if categoryName = "" then []
          else
            let ids0 : List Nat := []
            let ids1 :=
              match db.categories.find? (fun d => d.title == categoryName) with
              | some d => ids0 ++ [d.id]
              | none => ids0
            match cd.subcategory with
            | none => ids1
            | some subName =>
                if subName ≠ "" ∧ subName ≠ categoryName then
                  match db.subcategories.find? (fun d => d.title == subName) with
                  | some d => ids1 ++ [d.id]
                  | none => ids1
                else ids1

/-- The $or skill filter of the $match stage (agent_tools.py lines 201-206):
a geek passes when its primarySkill is one of the resolved skill ids or any
of its secondarySkills is. -/
def skillMatch (ids : List Nat) (g : GeekDoc) : Bool :=
  (match g.primarySkill with
   | some p => ids.contains p
   | none => false)
  || g.secondarySkills.any (fun i => ids.contains i)

/-- The two $lookup stages and the $project stage (agent_tools.py lines
254-297).  Both lookups read the categories collection: primarySkillName is
$arrayElemAt 0 of the titles of the categories whose _id equals the geek's
primarySkill, and secondarySkillsNames are the titles of the categories
whose _id occurs among the geek's secondarySkills, in the categories
collection's native order. -/
def attachNames (db : DB) (g : GeekDoc) : AggregatedGeekOutput :=
  { id := g.id
  , primarySkill := g.primarySkill
  , primarySkillName :=
      match g.primarySkill with
      | none => none
      | some p => ((db.categories.filter (fun d => d.id == p)).map (fun d => d.title)).head?
  , secondarySkillsNames :=
      (db.categories.filter (fun d => g.secondarySkills.contains d.id)).map (fun d => d.title) }

/-- get_geeks_from_user_issue (agent_tools.py lines 165-304): resolve the
issue's skill ids, apply the $or skill filter only when the resolved set is
non-empty (the $match stage is appended only when the query dict is
non-empty), then run the lookup and projection pipeline over the selected
geeks.  The function takes no pagination parameters and returns the full
result list. -/
def get_geeks_from_user_issue (db : DB) (user_issue : UserIssueInDB) :
    List AggregatedGeekOutput :=
  let skill_ids := skillIds db user_issue
  let selected := if skill_ids = [] then db.geeks else db.geeks.filter (skillMatch skill_ids)
  selected.map (attachNames db)

/-! Conversation handler embedding, from src/app/api.py (the chat
coroutine) and src/app/db/agent_chat_queries.py. -/

/-- Sender role of a stored chat message.  Modelled from the spec:
src/app/models/agent_chat_model.py is not under src; the spec (section 3)
gives the two roles USER and AGENT, api.py uses MessageSender.USER and
MessageSender.BOT.  The literal .value strings are unspecified; any two
distinct literals serve the claims. -/
inductive MessageSender
  | user
  | bot
deriving DecidableEq, Repr

/-- The sender role literal used in transcript lines (msg.sender.value at
api.py line 164).  Modelled from the spec: the concrete literals live in
the absent agent_chat_model.py. -/
def MessageSender.value : MessageSender → String
  | MessageSender.user => "USER"
  | MessageSender.bot => "BOT"

/-- A stored chat message record.  Modelled from the spec (section 6):
each message record carries conversation identifier, sender role, message
text and creation timestamp; the concrete pydantic model
(agent_chat_model.py) is not under src.  The creation timestamp is a Nat
tick. -/
structure ChatMessageInDB where
  conversation_id : String
  sender : MessageSender
  message : String
  created_at : Nat
deriving DecidableEq, Repr

/-- Comparison used by the history query's sort on created_at. -/
def chatLe (a b : ChatMessageInDB) : Prop := a.created_at ≤ b.created_at

instance : DecidableRel chatLe := fun a b => Nat.decLe a.created_at b.created_at

/-- get_chat_history_with_agent (agent_chat_queries.py lines 22-30): the
records of the collection whose conversation_id matches, sorted by
created_at ascending.  The collection is the store list in its insertion
order; the sort is modelled by a structural insertion sort. -/
def get_chat_history_with_agent (conversation_id : String)
    (store : List ChatMessageInDB) : List ChatMessageInDB :=
  List.insertionSort chatLe (store.filter (fun m => m.conversation_id == conversation_id))

/-- One transcript line, from the f-string at api.py line 164. -/
def transcriptLine (m : ChatMessageInDB) : String :=
  m.sender.value ++ ": " ++ m.message

/-- The transcript text block handed to the extractor (api.py line 164):
one line per message, joined by newline.  The handler's read at api.py
line 164 goes through history[0].chat_messages; under the spec's
per-message record shape (section 6) that attribute does not exist on a
record — the defect is recorded with the claim about the transcript build —
and the intended full-history read is what is modelled here. -/
def buildTranscript (history : List ChatMessageInDB) : String :=
  String.intercalate "\x0a" (history.map transcriptLine)

/-- Extraction failure (spec sections 4.2 and 7): the external completion
failed or its output did not validate into a structured issue.  Modelled
from the spec: src/app/utils/issue_extractor.py is not under src. -/
structure ExtractionError where
  message : String
deriving DecidableEq, Repr

/-- Data-access failure raised by the matching stage (spec sections 4.3
and 7). -/
structure DirectoryAccessError where
  message : String
deriving DecidableEq, Repr

/-- A message the handler pushes to the websocket: a plain agent turn
(api.py line 202), the intermediate processing notice (line 174), the
select-a-geek result (line 187), or the no-suitable-geeks notice
(line 189). -/
inductive OutMsg
  | turnText (text : String)
  | processing
  | selectGeek (geeks : List AggregatedGeekOutput)
  | noGeeks
deriving DecidableEq, Repr

/-- External collaborators of one conversation, as oracle functions:
assistant is ChatAssistantChain.run composed with the response field read
(api.py lines 197, 200, 203); decodeInner is the json.loads(text)
followed by the response field read applied before persisting the agent
message (line 213); extract is IssueExtractor.extract_issue_details
followed by UserIssueCreate validation (lines 168-178; modelled from the
spec, issue_extractor.py is not under src) so a failure of either step is
an ExtractionError; matchStage is the get_geeks_from_user_issue call of
line 184 together with the environmental data-access failures the spec
names DirectoryAccessError. -/
structure Oracles where
  assistant : String → String
  decodeInner : String → String
  extract : String → Except ExtractionError UserIssueInDB
  matchStage : UserIssueInDB → Except DirectoryAccessError (List AggregatedGeekOutput)

/-- The observable state of one conversation's handler: the stored last
agent question (agent_last_question keyed by this conversation), the
message store, the persisted issues, the messages sent over the socket,
invocation counters for extraction and matching, whether the loop exited
through the terminal handoff, whether an exception escaped to the outer
handler of api.py lines 226-229, and the clock used to stamp created_at. -/
structure SessState where
  conversationId : String
  lastAgentQuestion : Option String
  store : List ChatMessageInDB
  persistedIssues : List UserIssueInDB
  sent : List OutMsg
  extractionCount : Nat
  matchCount : Nat
  terminated : Bool
  crashed : Bool
  clock : Nat
deriving Repr

/-- The confirmation prompt fragment tested at api.py line 158. -/
def confirmationPhrase : String := "Is this summary correct?"

/-- Substring containment, modelling the Python in operator on strings. -/
def containsPhrase (q : String) : Bool := decide (confirmationPhrase.data <:+: q.data)

/-- The check of api.py line 158, left of the conjunction: the stored last
agent question exists, is truthy, and contains the confirmation phrase as
a substring.  The phrase is non-empty so Python truthiness of the stored
text is subsumed by the substring test. -/
def awaitingConfirmation (lastQ : Option String) : Bool :=
  match lastQ with
  | none => false
  | some q => containsPhrase q

/-- The check of api.py line 158, right of the conjunction: the lowered
inbound text equals the literal yes.  No trimming is applied. -/
def isYesLiteral (s : String) : Bool := decide (pyLower s = "yes")

/-- The user message record appended at api.py lines 147-151. -/
def mkUserMsg (s : SessState) (m : String) : ChatMessageInDB :=
  { conversation_id := s.conversationId
  , sender := MessageSender.user
  , message := m
  , created_at := s.clock }

/-- The tail of a non-terminal turn (api.py lines 202-216): send the reply
text, record it as the last agent question, and persist the agent message
whose text is the inner response field of the reply. -/
def agentTurn (o : Oracles) (s : SessState) (r : String) : SessState :=
  { s with
    sent := s.sent ++ [OutMsg.turnText r]
    lastAgentQuestion := some r
    store := s.store ++ [{ conversation_id := s.conversationId
                         , sender := MessageSender.bot
                         , message := o.decodeInner r
                         , created_at := s.clock }]
    clock := s.clock + 1 }

/-- The terminal handoff (api.py lines 159-195), entered with the user
message already appended: build the transcript from the stored history,
run extraction (a failure propagates to the outer exception handler and
nothing further runs), send the processing notice, persist the issue, run
the matching stage inside its own try (a failure there is logged and
nothing is sent), then delete the stored last question and leave the
loop. -/
def terminalHandoff (o : Oracles) (s : SessState) : SessState :=
  let transcript := buildTranscript (get_chat_history_with_agent s.conversationId s.store)
  let s0 := { s with extractionCount := s.extractionCount + 1 }
  match o.extract transcript with
  | Except.error _ => { s0 with crashed := true, terminated := true }
  | Except.ok issue =>
      let s1 := { s0 with sent := s0.sent ++ [OutMsg.processing] }
      let s2 := { s1 with persistedIssues := s1.persistedIssues ++ [issue] }
      let s3 := { s2 with matchCount := s2.matchCount + 1 }
      let s4 :=
        match o.matchStage issue with
        | Except.ok geeks =>
            if geeks.isEmpty then { s3 with sent := s3.sent ++ [OutMsg.noGeeks] }
            else { s3 with sent := s3.sent ++ [OutMsg.selectGeek geeks] }
        | Except.error _ => s3
      { s4 with lastAgentQuestion := none, terminated := true }

/-- One inbound websocket payload after the json.loads discrimination of
api.py lines 134-143: a JSON object whose action field is
continue_conversation carries a chat_history payload; every other payload
(raw text, undecodable text, other JSON values) is handled through its
effective str(query) rendering. -/
inductive Query
  | plain (s : String)
  | continuation (chatHistory : String)

/-- One iteration of the handler loop (api.py lines 129-216) for one
inbound payload.  A continuation skips the user-message append and the
terminal check and replays the chat history to the assistant; any other
payload is appended as a user message, then either triggers the terminal
handoff (stored last question contains the confirmation phrase and the
lowered text equals yes) or is forwarded to the assistant. -/
def chatStep (o : Oracles) (s : SessState) (q : Query) : SessState :=
  match q with
  | Query.continuation ch => agentTurn o s (o.assistant ch)
  | Query.plain m =>
      let s1 := { s with store := s.store ++ [mkUserMsg s m], clock := s.clock + 1 }
      if awaitingConfirmation s1.lastAgentQuestion && isYesLiteral m then
        terminalHandoff o s1
      else
        agentTurn o s1 (o.assistant m)

/-- The transcript the handoff would extract from after appending the
inbound user message to the store. -/
def pendingTranscript (s : SessState) (m : String) : String :=
  buildTranscript (get_chat_history_with_agent s.conversationId (s.store ++ [mkUserMsg s m]))

/-! Claim-side definitions.  Each of the following follows the words of a
claim (or of its amended form), to be compared with the definitions
embedded from the source above. -/

/-- The candidate skill-identifier set as claim C4 words it, with its two
clauses independent: the identifier of the category whose title exactly
equals the issue's category name, if one is found, plus, only when a
subcategory name is present and differs from the category name, the
identifier of the subcategory whose title exactly equals it, if found. -/
def skillIdsPerClaim (db : DB) (issue : UserIssueInDB) : List Nat :=
  match issue.category_details with
  | none => []
  | some cd =>
      (match cd.category with
       | some c =>
           if c ≠ "" then
             match db.categories.find? (fun d => d.title == c) with
             | some d => [d.id]
             | none => []
           else []
       | none => []) ++
      (if truthyOptStr cd.subcategory ∧ cd.subcategory ≠ cd.category then
         match cd.subcategory with
         | some sName =>
             match db.subcategories.find? (fun d => d.title == sName) with
             | some d => [d.id]
             | none => []
         | none => []
       else [])

/-- The candidate skill-identifier set as the amended claim C4 words it:
nothing is resolved unless a non-empty category name is present; then the
category's identifier when an exact title match exists, plus the
subcategory's identifier when a non-empty subcategory name differing from
the category name is present and resolves. -/
def skillIdsAmended (db : DB) (issue : UserIssueInDB) : List Nat :=
  match issue.category_details with
  | none => []
  | some cd =>
      if truthyOptStr cd.category then
        (match db.categories.find? (fun d => d.title == cd.category.getD "") with
         | some d => [d.id]
         | none => []) ++
        (if truthyOptStr cd.subcategory ∧ cd.subcategory.getD "" ≠ cd.category.getD "" then
           match db.subcategories.find? (fun d => d.title == cd.subcategory.getD "") with
           | some d => [d.id]
           | none => []
         else [])
      else []

/-- The skill hierarchy as claim C8 speaks of it: category entries and
subcategory entries together. -/
def skillHierarchy (db : DB) : List SkillDoc := db.categories ++ db.subcategories

/-- Title of the first document of the given collection whose identifier
equals the reference, absent when none resolves (the resolution rule as
claims C8 and its amendment word it). -/
def resolveTitleFirst (docs : List SkillDoc) (ref : Option Nat) : Option String :=
  match ref with
  | none => none
  | some p => (docs.find? (fun d => d.id == p)).map (fun d => d.title)

/-- The attached primary-skill name as claim C8 words it: the title of the
first skill-hierarchy document (category or subcategory) whose identifier
equals the provider's primarySkill reference. -/
def primaryNamePerClaim (db : DB) (g : GeekDoc) : Option String :=
  resolveTitleFirst (skillHierarchy db) g.primarySkill

/-- The secondary-skill names as the amended claim C8 words them: the
titles of all categories whose identifier occurs among the references, in
the category directory's order. -/
def titlesAmongRefs (docs : List SkillDoc) (refs : List Nat) : List String :=
  docs.foldr (fun d acc => if refs.contains d.id then d.title :: acc else acc) []

/-! Concrete fixtures used by witnesses and counterexamples. -/

/-- An issue with no categoryDetails. -/
def issueNoDetails : UserIssueInDB := { category_details := none }

/-- A geek whose primarySkill resolves in the fixture directory. -/
def geekFix1 : GeekDoc := { id := 1, primarySkill := some 5, secondarySkills := [] }

/-- Directory with one category, one subcategory and three geeks: one
matches through primarySkill, one through secondarySkills, one not at
all. -/
def dbFix : DB :=
  { categories := [{ id := 5, title := "Appliance Repair" }]
  , subcategories := [{ id := 7, title := "Refrigerator" }]
  , geeks :=
      [ geekFix1
      , { id := 2, primarySkill := none, secondarySkills := [7, 9] }
      , { id := 3, primarySkill := none, secondarySkills := [9] } ] }

/-- An issue resolving to both fixture skills. -/
def issueFix : UserIssueInDB :=
  { category_details := some { category := some "Appliance Repair"
                             , subcategory := some "Refrigerator" } }

/-- Directory of six geeks with an empty skill hierarchy: no filter can
apply and the matcher returns all six entries. -/
def dbSix : DB :=
  { categories := []
  , subcategories := []
  , geeks :=
      [ { id := 1, primarySkill := none, secondarySkills := [] }
      , { id := 2, primarySkill := none, secondarySkills := [] }
      , { id := 3, primarySkill := none, secondarySkills := [] }
      , { id := 4, primarySkill := none, secondarySkills := [] }
      , { id := 5, primarySkill := none, secondarySkills := [] }
      , { id := 6, primarySkill := none, secondarySkills := [] } ] }

/-- Directory whose only skill document is a subcategory; its one geek
holds that subcategory as primarySkill reference. -/
def dbSubOnly : DB :=
  { categories := []
  , subcategories := [{ id := 7, title := "Screen Repair" }]
  , geeks := [ { id := 1, primarySkill := some 7, secondarySkills := [] } ] }

/-- An issue carrying only a subcategory name, no category name. -/
def issueSubOnly : UserIssueInDB :=
  { category_details := some { category := none, subcategory := some "Screen Repair" } }

/-- Directory for the subcategory-only issue: one resolvable subcategory
and one geek without that skill. -/
def dbSubIssue : DB :=
  { categories := []
  , subcategories := [{ id := 7, title := "Screen Repair" }]
  , geeks := [ { id := 1, primarySkill := none, secondarySkills := [] } ] }

/-- A fresh awaiting-confirmation session: the stored last agent question
carries the confirmation phrase inside longer text. -/
def sAwait : SessState :=
  { conversationId := "c1"
  , lastAgentQuestion :=
      some "I have gathered all the necessary information. Is this summary correct?"
  , store := []
  , persistedIssues := []
  , sent := []
  , extractionCount := 0
  , matchCount := 0
  , terminated := false
  , crashed := false
  , clock := 0 }

/-- Oracles for a healthy run: a constant assistant reply, identity inner
decode, an extraction returning the empty issue, a matching stage
returning no candidates. -/
def oPlain : Oracles :=
  { assistant := fun _ => "What brand is your device?"
  , decodeInner := fun t => t
  , extract := fun _ => Except.ok issueNoDetails
  , matchStage := fun _ => Except.ok [] }

/-- Oracles whose extraction always fails. -/
def oExtractFail : Oracles :=
  { assistant := fun _ => "What brand is your device?"
  , decodeInner := fun t => t
  , extract := fun _ => Except.error { message := "completion failed" }
  , matchStage := fun _ => Except.ok [] }

/-- Oracles whose matching stage raises a data-access error. -/
def oMatchFail : Oracles :=
  { assistant := fun _ => "What brand is your device?"
  , decodeInner := fun t => t
  , extract := fun _ => Except.ok issueNoDetails
  , matchStage := fun _ => Except.error { message := "connection failure" } }

/-- A two-message store for one conversation, held out of timestamp order
to exercise the history sort. -/
def storeTwo : List ChatMessageInDB :=
  [ { conversation_id := "c9", sender := MessageSender.bot
    , message := "What brand?", created_at := 1 }
  , { conversation_id := "c9", sender := MessageSender.user
    , message := "Fridge not cooling", created_at := 0 } ]

/-! Theorems.  Shared helper lemmas come first; then one theorem per
claim, each with its witness or counterexample where required. -/

/-- Characterization of the $or skill filter. -/
theorem skillMatch_iff (ids : List Nat) (g : GeekDoc) :
    skillMatch ids g = true ↔
      (∃ i, g.primarySkill = some i ∧ i ∈ ids) ∨
      (∃ i, i ∈ g.secondarySkills ∧ i ∈ ids) := by
  unfold skillMatch
  cases hp : g.primarySkill with
  | none => simp [List.any_eq_true, And.comm]
  | some p => simp [List.any_eq_true, And.comm]

/-- Claim C1: when the issue's categoryDetails resolve to a non-empty
skill-identifier set, every entry the matcher returns comes from a
provider whose primarySkill lies in the set or whose secondarySkills meet
the set; when the resolved set is empty, no filter is applied and the
matcher returns every provider of the directory. -/
theorem skill_filter_C1 (db : DB) (issue : UserIssueInDB) :
    (skillIds db issue ≠ [] →
       ∀ out ∈ get_geeks_from_user_issue db issue,
         ∃ g, g ∈ db.geeks ∧ out = attachNames db g ∧
           ((∃ i, g.primarySkill = some i ∧ i ∈ skillIds db issue) ∨
            (∃ i, i ∈ g.secondarySkills ∧ i ∈ skillIds db issue))) ∧
    (skillIds db issue = [] →
       get_geeks_from_user_issue db issue = db.geeks.map (attachNames db)) := by
  constructor
  · intro hne out hmem
    have hmem2 : out ∈ (db.geeks.filter (skillMatch (skillIds db issue))).map (attachNames db) := by
      simpa [get_geeks_from_user_issue, hne] using hmem
    obtain ⟨g, hgf, rfl⟩ := List.mem_map.mp hmem2
    obtain ⟨hg, hsm⟩ := List.mem_filter.mp hgf
    exact ⟨g, hg, rfl, (skillMatch_iff _ g).mp hsm⟩
  · intro he
    simp [get_geeks_from_user_issue, he]

/-- Witness for C1: in the fixture directory the resolved set is non-empty
and the soundness statement holds; for the issue with no categoryDetails
the resolved set is empty and the full directory is returned. -/
theorem skill_filter_C1_witness :
    (skillIds dbFix issueFix ≠ []) ∧
    (∀ out ∈ get_geeks_from_user_issue dbFix issueFix,
       ∃ g, g ∈ dbFix.geeks ∧ out = attachNames dbFix g ∧
         ((∃ i, g.primarySkill = some i ∧ i ∈ skillIds dbFix issueFix) ∨
          (∃ i, i ∈ g.secondarySkills ∧ i ∈ skillIds dbFix issueFix))) ∧
    (skillIds dbSix issueNoDetails = []) ∧
    (get_geeks_from_user_issue dbSix issueNoDetails
       = dbSix.geeks.map (attachNames dbSix)) :=
  ⟨by decide, (skill_filter_C1 dbFix issueFix).1 (by decide), by decide,
   (skill_filter_C1 dbSix issueNoDetails).2 (by decide)⟩

/-- Claim C3: evaluation of the matcher at a six-provider directory with no
resolvable skills.  The function has no pagination parameters (its caller
at api.py line 184 passes page and page_size it does not accept) and
returns the full result list: six entries, more than the page size of five
the caller requests. -/
theorem no_pagination_C3 :
    (get_geeks_from_user_issue dbSix issueNoDetails).length = 6 ∧
    ¬ (get_geeks_from_user_issue dbSix issueNoDetails).length ≤ 5 := by decide

/-- Counterexample to claim C4 as stated: with an issue carrying no
category name but a resolvable subcategory name, the claim's two
independent clauses put the subcategory's identifier into the set, while
the code resolves nothing (the whole block is gated on a truthy category
name) and consequently applies no filter at all. -/
theorem skill_set_C4_counterexample :
    skillIds dbSubIssue issueSubOnly = [] ∧
    skillIdsPerClaim dbSubIssue issueSubOnly = [7] ∧
    get_geeks_from_user_issue dbSubIssue issueSubOnly
      = dbSubIssue.geeks.map (attachNames dbSubIssue) := by decide

/-- Claim C4 as amended: the candidate set is built only when a non-empty
category name is present; then it is the category's identifier when the
exact title resolves, plus the subcategory's identifier when a non-empty
subcategory name differing from the category name resolves; unresolved
names are silently dropped and resolution is total. -/
theorem skill_set_C4_amended (db : DB) (issue : UserIssueInDB) :
    skillIds db issue = skillIdsAmended db issue := by
  rcases issue with ⟨_ | cd⟩
  · rfl
  rcases cd with ⟨cOpt, sOpt⟩
  rcases cOpt with _ | c
  · rfl
  rcases sOpt with _ | s
  · simp only [skillIds, skillIdsAmended, truthyOptStr, Option.getD]
    split_ifs <;> simp_all
  · simp only [skillIds, skillIdsAmended, truthyOptStr, Option.getD]
    split_ifs <;>
      first
      | (simp_all; done)
      | (cases List.find? (fun d => d.title == s) db.subcategories <;>
         cases List.find? (fun d => d.title == c) db.categories <;> simp_all)

/-- The foldr form of collecting titles equals filtering then mapping. -/
theorem titlesAmongRefs_eq (docs : List SkillDoc) (refs : List Nat) :
    titlesAmongRefs docs refs
      = (docs.filter (fun d => refs.contains d.id)).map (fun d => d.title) := by
  induction docs with
  | nil => rfl
  | cons a t ih =>
      by_cases hm : a.id ∈ refs <;>
        simp [titlesAmongRefs, List.filter_cons, hm] at ih ⊢ <;>
        exact ih

/-- The attached primary-skill name is the first-match resolution against
the categories collection only. -/
theorem attachNames_primaryName (db : DB) (g : GeekDoc) :
    (attachNames db g).primarySkillName = resolveTitleFirst db.categories g.primarySkill := by
  cases hp : g.primarySkill with
  | none => simp [attachNames, resolveTitleFirst, hp]
  | some p => simp [attachNames, resolveTitleFirst, hp]

/-- The attached secondary-skill names are the titles collected from the
categories collection only, in its native order. -/
theorem attachNames_secondaryNames (db : DB) (g : GeekDoc) :
    (attachNames db g).secondarySkillsNames = titlesAmongRefs db.categories g.secondarySkills := by
  unfold attachNames
  rw [titlesAmongRefs_eq]

/-- Membership in the matcher's output always comes from a directory geek
through attachNames. -/
theorem mem_get_geeks (db : DB) (issue : UserIssueInDB) (out : AggregatedGeekOutput)
    (h : out ∈ get_geeks_from_user_issue db issue) :
    ∃ g, g ∈ db.geeks ∧ out = attachNames db g := by
  by_cases he : skillIds db issue = []
  · have h2 : out ∈ db.geeks.map (attachNames db) := by
      simpa [get_geeks_from_user_issue, he] using h
    obtain ⟨g, hg, rfl⟩ := List.mem_map.mp h2
    exact ⟨g, hg, rfl⟩
  · have h2 : out ∈ (db.geeks.filter (skillMatch (skillIds db issue))).map (attachNames db) := by
      simpa [get_geeks_from_user_issue, he] using h
    obtain ⟨g, hgf, rfl⟩ := List.mem_map.mp h2
    exact ⟨g, (List.mem_filter.mp hgf).1, rfl⟩

/-- Counterexample to claim C8 as stated: a provider whose primarySkill
reference denotes a subcategory document gets no attached name from the
matcher, although the first skill-hierarchy document with that identifier
exists and has a title. -/
theorem skill_names_C8_counterexample :
    (get_geeks_from_user_issue dbSubOnly issueNoDetails).map
        (fun o => o.primarySkillName) = [none] ∧
    dbSubOnly.geeks.map (primaryNamePerClaim dbSubOnly) = [some "Screen Repair"] := by
  decide

/-- Claim C8 as amended: names are resolved against the categories
collection only.  Every returned entry comes from a directory provider;
its attached primary-skill name is the title of the first category whose
identifier equals the provider's primarySkill reference (absent when none
resolves, in particular when the reference denotes a subcategory), and its
attached secondary-skill names are the titles of all categories whose
identifier occurs among the provider's secondarySkills references, in the
category directory's native order. -/
theorem skill_names_C8_amended (db : DB) (issue : UserIssueInDB)
    (out : AggregatedGeekOutput) (h : out ∈ get_geeks_from_user_issue db issue) :
    ∃ g, g ∈ db.geeks ∧ out = attachNames db g ∧
      out.primarySkillName = resolveTitleFirst db.categories g.primarySkill ∧
      out.secondarySkillsNames = titlesAmongRefs db.categories g.secondarySkills := by
  obtain ⟨g, hg, rfl⟩ := mem_get_geeks db issue out h
  exact ⟨g, hg, rfl, attachNames_primaryName db g, attachNames_secondaryNames db g⟩

/-- Witness for the amended C8 at the fixture directory. -/
theorem skill_names_C8_witness :
    (attachNames dbFix geekFix1 ∈ get_geeks_from_user_issue dbFix issueFix) ∧
    (∃ g, g ∈ dbFix.geeks ∧ attachNames dbFix geekFix1 = attachNames dbFix g ∧
       (attachNames dbFix geekFix1).primarySkillName
          = resolveTitleFirst dbFix.categories g.primarySkill ∧
       (attachNames dbFix geekFix1).secondarySkillsNames
          = titlesAmongRefs dbFix.categories g.secondarySkills) :=
  ⟨by decide, skill_names_C8_amended dbFix issueFix (attachNames dbFix geekFix1) (by decide)⟩

/-- The terminal handoff always increments the extraction counter and
always ends the loop, whichever way extraction and matching go. -/
theorem terminalHandoff_counters (o : Oracles) (s : SessState) :
    (terminalHandoff o s).extractionCount = s.extractionCount + 1 ∧
    (terminalHandoff o s).terminated = true := by
  simp only [terminalHandoff]
  split
  · exact ⟨rfl, rfl⟩
  · split
    · split
      · exact ⟨rfl, rfl⟩
      · exact ⟨rfl, rfl⟩
    · exact ⟨rfl, rfl⟩

/-- Shape of the handoff when extraction fails: the failure escapes to the
outer exception handler; nothing is sent, nothing is persisted, the
matching stage never runs. -/
theorem terminalHandoff_extract_error (o : Oracles) (s : SessState) (e : ExtractionError)
    (h : o.extract (buildTranscript (get_chat_history_with_agent s.conversationId s.store))
           = Except.error e) :
    terminalHandoff o s =
      { s with extractionCount := s.extractionCount + 1
             , crashed := true
             , terminated := true } := by
  simp only [terminalHandoff, h]

/-- Shape of the handoff when extraction succeeds and the matching stage
raises: the issue is persisted, the processing notice is the only send,
the error is swallowed by the inner handler and the loop ends normally. -/
theorem terminalHandoff_match_error (o : Oracles) (s : SessState)
    (issue : UserIssueInDB) (e : DirectoryAccessError)
    (hx : o.extract (buildTranscript (get_chat_history_with_agent s.conversationId s.store))
            = Except.ok issue)
    (hm : o.matchStage issue = Except.error e) :
    terminalHandoff o s =
      { s with extractionCount := s.extractionCount + 1
             , sent := s.sent ++ [OutMsg.processing]
             , persistedIssues := s.persistedIssues ++ [issue]
             , matchCount := s.matchCount + 1
             , lastAgentQuestion := none
             , terminated := true } := by
  simp only [terminalHandoff, hx, hm]

/-- A plain inbound message that passes the line-158 check runs the
terminal handoff over the state with the user message appended. -/
theorem chatStep_plain_trigger (o : Oracles) (s : SessState) (m : String)
    (h : (awaitingConfirmation s.lastAgentQuestion && isYesLiteral m) = true) :
    chatStep o s (Query.plain m)
      = terminalHandoff o { s with store := s.store ++ [mkUserMsg s m], clock := s.clock + 1 } := by
  simp [chatStep, h]

/-- A plain inbound message that fails the line-158 check is forwarded to
the assistant as a normal turn. -/
theorem chatStep_plain_noTrigger (o : Oracles) (s : SessState) (m : String)
    (h : (awaitingConfirmation s.lastAgentQuestion && isYesLiteral m) = false) :
    chatStep o s (Query.plain m)
      = agentTurn o { s with store := s.store ++ [mkUserMsg s m], clock := s.clock + 1 }
          (o.assistant m) := by
  simp [chatStep, h]

/-- Counterexample to claim C2 as stated: the inbound text built from one
leading space and the word yes equals the literal yes after trimming and
lowering, the session is awaiting confirmation, yet the handler does not
reach the terminal state and never invokes extraction, because the
comparison at api.py line 158 lowers without trimming. -/
theorem yes_trigger_C2_counterexample :
    pyLower (pyStrip " yes") = "yes" ∧
    awaitingConfirmation sAwait.lastAgentQuestion = true ∧
    sAwait.terminated = false ∧
    (chatStep oPlain sAwait (Query.plain " yes")).terminated = false ∧
    (chatStep oPlain sAwait (Query.plain " yes")).extractionCount = 0 := by
  decide

/-- Claim C2 as amended: while the session is awaiting confirmation and
still open, the next plain inbound message reaches the terminal state
exactly when its lowered text, without trimming, equals the literal yes;
on that transition extraction is invoked exactly once, and any other
message leaves the session open, invokes no extraction, and continues the
dialogue by recording a fresh agent reply. -/
theorem yes_trigger_C2 (o : Oracles) (s : SessState) (m : String)
    (h0 : s.terminated = false)
    (h1 : awaitingConfirmation s.lastAgentQuestion = true) :
    ((chatStep o s (Query.plain m)).terminated = true ↔ pyLower m = "yes") ∧
    (pyLower m = "yes" →
       (chatStep o s (Query.plain m)).extractionCount = s.extractionCount + 1) ∧
    (pyLower m ≠ "yes" →
       (chatStep o s (Query.plain m)).terminated = false ∧
       (chatStep o s (Query.plain m)).extractionCount = s.extractionCount ∧
       (chatStep o s (Query.plain m)).lastAgentQuestion = some (o.assistant m)) := by
  by_cases hy : pyLower m = "yes"
  · have hcond : (awaitingConfirmation s.lastAgentQuestion && isYesLiteral m) = true := by
      simp [h1, isYesLiteral, hy]
    rw [chatStep_plain_trigger o s m hcond]
    refine ⟨?_, fun _ => ?_, fun hn => absurd hy hn⟩
    · simp [hy, (terminalHandoff_counters o _).2]
    · simpa using (terminalHandoff_counters o _).1
  · have hcond : (awaitingConfirmation s.lastAgentQuestion && isYesLiteral m) = false := by
      simp [isYesLiteral, hy]
    rw [chatStep_plain_noTrigger o s m hcond]
    refine ⟨?_, fun hyy => absurd hyy hy, fun _ => ⟨?_, ?_, ?_⟩⟩
    · simp [agentTurn, h0, hy]
    · simp [agentTurn, h0]
    · simp [agentTurn]
    · simp [agentTurn]

/-- Witness for the amended C2: in the awaiting fixture the uppercase YES
triggers the terminal transition. -/
theorem yes_trigger_C2_witness :
    sAwait.terminated = false ∧
    awaitingConfirmation sAwait.lastAgentQuestion = true ∧
    ((chatStep oPlain sAwait (Query.plain "YES")).terminated = true ↔ pyLower "YES" = "yes") :=
  ⟨by decide, by decide, (yes_trigger_C2 oPlain sAwait "YES" (by decide) (by decide)).1⟩

/-- Claim C5: the awaiting-confirmation detection is a substring test on
the stored last agent reply, recomputed from a value that is overwritten
after every agent turn.  A reply containing the phrase strictly inside
longer text arms the trigger; any non-yes turn overwrites the stored reply
with the fresh assistant output, and when that fresh reply lacks the
phrase a subsequent yes no longer triggers. -/
theorem substring_trigger_C5 (o : Oracles) (s : SessState) (a b : String)
    (h : s.lastAgentQuestion = some (a ++ confirmationPhrase ++ b)) :
    awaitingConfirmation s.lastAgentQuestion = true ∧
    (chatStep o s (Query.plain "yes")).extractionCount = s.extractionCount + 1 ∧
    (∀ m, isYesLiteral m = false →
       (chatStep o s (Query.plain m)).lastAgentQuestion = some (o.assistant m) ∧
       (containsPhrase (o.assistant m) = false →
          (chatStep o (chatStep o s (Query.plain m)) (Query.plain "yes")).extractionCount
            = (chatStep o s (Query.plain m)).extractionCount)) := by
  have hAw : awaitingConfirmation s.lastAgentQuestion = true := by
    rw [h]
    simp [awaitingConfirmation, containsPhrase]
  refine ⟨hAw, ?_, ?_⟩
  · have hcond : (awaitingConfirmation s.lastAgentQuestion && isYesLiteral "yes") = true := by
      simp [hAw, isYesLiteral, pyLower]
    rw [chatStep_plain_trigger o s "yes" hcond]
    simpa using (terminalHandoff_counters o _).1
  · intro m hm
    have hcond : (awaitingConfirmation s.lastAgentQuestion && isYesLiteral m) = false := by
      simp [hm]
    rw [chatStep_plain_noTrigger o s m hcond]
    constructor
    · simp [agentTurn]
    · intro hnp
      have h2 : (agentTurn o { s with store := s.store ++ [mkUserMsg s m], clock := s.clock + 1 }
                   (o.assistant m)).lastAgentQuestion = some (o.assistant m) := by
        simp [agentTurn]
      have hAw2 : awaitingConfirmation
          (agentTurn o { s with store := s.store ++ [mkUserMsg s m], clock := s.clock + 1 }
             (o.assistant m)).lastAgentQuestion = false := by
        rw [h2]
        simp [awaitingConfirmation, hnp]
      have hcond2 : (awaitingConfirmation
          (agentTurn o { s with store := s.store ++ [mkUserMsg s m], clock := s.clock + 1 }
             (o.assistant m)).lastAgentQuestion && isYesLiteral "yes") = false := by
        simp [hAw2]
      rw [chatStep_plain_noTrigger o _ "yes" hcond2]
      simp [agentTurn]

/-- Witness for C5 at the awaiting fixture, whose stored reply embeds the
phrase inside a longer sentence. -/
theorem substring_trigger_C5_witness :
    sAwait.lastAgentQuestion
      = some ("I have gathered all the necessary information. " ++ confirmationPhrase ++ "") ∧
    awaitingConfirmation sAwait.lastAgentQuestion = true ∧
    (chatStep oPlain sAwait (Query.plain "yes")).extractionCount = sAwait.extractionCount + 1 :=
  ⟨by decide,
   (substring_trigger_C5 oPlain sAwait "I have gathered all the necessary information. " ""
      (by decide)).1,
   (substring_trigger_C5 oPlain sAwait "I have gathered all the necessary information. " ""
      (by decide)).2.1⟩

/-- Claim C6: when the terminal transition fires and extraction fails, the
failure escapes to the outer handler instead of turning into a default
issue; nothing is sent for that handoff, no issue is persisted, and the
matching stage never runs. -/
theorem extraction_failure_C6 (o : Oracles) (s : SessState) (m : String) (e : ExtractionError)
    (h1 : awaitingConfirmation s.lastAgentQuestion = true)
    (h2 : pyLower m = "yes")
    (h3 : o.extract (pendingTranscript s m) = Except.error e) :
    (chatStep o s (Query.plain m)).crashed = true ∧
    (chatStep o s (Query.plain m)).extractionCount = s.extractionCount + 1 ∧
    (chatStep o s (Query.plain m)).persistedIssues = s.persistedIssues ∧
    (chatStep o s (Query.plain m)).matchCount = s.matchCount ∧
    (chatStep o s (Query.plain m)).sent = s.sent := by
  have hcond : (awaitingConfirmation s.lastAgentQuestion && isYesLiteral m) = true := by
    simp [h1, isYesLiteral, h2]
  rw [chatStep_plain_trigger o s m hcond,
      terminalHandoff_extract_error o
        { s with store := s.store ++ [mkUserMsg s m], clock := s.clock + 1 } e (by exact h3)]
  exact ⟨rfl, rfl, rfl, rfl, rfl⟩

/-- Witness for C6: the failing-extraction oracles at the awaiting
fixture. -/
theorem extraction_failure_C6_witness :
    awaitingConfirmation sAwait.lastAgentQuestion = true ∧
    pyLower "yes" = "yes" ∧
    oExtractFail.extract (pendingTranscript sAwait "yes")
      = Except.error { message := "completion failed" } ∧
    ((chatStep oExtractFail sAwait (Query.plain "yes")).crashed = true ∧
     (chatStep oExtractFail sAwait (Query.plain "yes")).extractionCount
       = sAwait.extractionCount + 1 ∧
     (chatStep oExtractFail sAwait (Query.plain "yes")).persistedIssues
       = sAwait.persistedIssues ∧
     (chatStep oExtractFail sAwait (Query.plain "yes")).matchCount = sAwait.matchCount ∧
     (chatStep oExtractFail sAwait (Query.plain "yes")).sent = sAwait.sent) :=
  ⟨by decide, by decide, rfl,
   extraction_failure_C6 oExtractFail sAwait "yes" { message := "completion failed" }
     (by decide) (by decide) rfl⟩

/-- Counterexample to claim C7 as stated: when the matching stage raises,
the handler catches the error but sends nothing at all afterwards — in
particular the no-suitable-geeks notice the claim promises is never sent;
only the processing notice went out, while the issue stayed persisted and
the session ended without crashing. -/
theorem match_error_C7_counterexample :
    (chatStep oMatchFail sAwait (Query.plain "yes")).matchCount = 1 ∧
    (chatStep oMatchFail sAwait (Query.plain "yes")).crashed = false ∧
    (chatStep oMatchFail sAwait (Query.plain "yes")).sent = [OutMsg.processing] ∧
    OutMsg.noGeeks ∉ (chatStep oMatchFail sAwait (Query.plain "yes")).sent ∧
    (chatStep oMatchFail sAwait (Query.plain "yes")).persistedIssues = [issueNoDetails] := by
  decide

/-- Claim C7 as amended: a data-access error in the matching stage is
caught and logged without any report to the user; the session does not
crash (the handoff completes, the stored last question is cleared, the
loop ends), the only send of the stage is the processing notice, and the
issue persisted before matching remains persisted. -/
theorem match_error_C7 (o : Oracles) (s : SessState) (m : String)
    (issue : UserIssueInDB) (e : DirectoryAccessError)
    (h1 : awaitingConfirmation s.lastAgentQuestion = true)
    (h2 : pyLower m = "yes")
    (h3 : o.extract (pendingTranscript s m) = Except.ok issue)
    (h4 : o.matchStage issue = Except.error e) :
    (chatStep o s (Query.plain m)).crashed = s.crashed ∧
    (chatStep o s (Query.plain m)).terminated = true ∧
    (chatStep o s (Query.plain m)).persistedIssues = s.persistedIssues ++ [issue] ∧
    (chatStep o s (Query.plain m)).sent = s.sent ++ [OutMsg.processing] ∧
    (chatStep o s (Query.plain m)).lastAgentQuestion = none ∧
    (chatStep o s (Query.plain m)).matchCount = s.matchCount + 1 := by
  have hcond : (awaitingConfirmation s.lastAgentQuestion && isYesLiteral m) = true := by
    simp [h1, isYesLiteral, h2]
  rw [chatStep_plain_trigger o s m hcond,
      terminalHandoff_match_error o
        { s with store := s.store ++ [mkUserMsg s m], clock := s.clock + 1 } issue e
        (by exact h3) h4]
  exact ⟨rfl, rfl, rfl, rfl, rfl, rfl⟩

/-- Witness for the amended C7: the failing-matching oracles at the
awaiting fixture. -/
theorem match_error_C7_witness :
    awaitingConfirmation sAwait.lastAgentQuestion = true ∧
    pyLower "yes" = "yes" ∧
    oMatchFail.extract (pendingTranscript sAwait "yes") = Except.ok issueNoDetails ∧
    oMatchFail.matchStage issueNoDetails = Except.error { message := "connection failure" } ∧
    ((chatStep oMatchFail sAwait (Query.plain "yes")).crashed = sAwait.crashed ∧
     (chatStep oMatchFail sAwait (Query.plain "yes")).terminated = true ∧
     (chatStep oMatchFail sAwait (Query.plain "yes")).persistedIssues
       = sAwait.persistedIssues ++ [issueNoDetails] ∧
     (chatStep oMatchFail sAwait (Query.plain "yes")).sent
       = sAwait.sent ++ [OutMsg.processing] ∧
     (chatStep oMatchFail sAwait (Query.plain "yes")).lastAgentQuestion = none ∧
     (chatStep oMatchFail sAwait (Query.plain "yes")).matchCount = sAwait.matchCount + 1) :=
  ⟨by decide, by decide, rfl, rfl,
   match_error_C7 oMatchFail sAwait "yes" issueNoDetails { message := "connection failure" }
     (by decide) (by decide) rfl rfl⟩

/-- Claim C9: evaluation of the history query and the line format at a
two-message conversation stored out of timestamp order.  The query returns
the records sorted by created_at ascending, and the claimed transcript is
one sender-and-text line per message in that order; the handler's actual
read at api.py line 164 goes through history[0].chat_messages, an
attribute the per-message records do not carry. -/
theorem transcript_build_C9 :
    get_chat_history_with_agent "c9" storeTwo =
      [ { conversation_id := "c9", sender := MessageSender.user
        , message := "Fridge not cooling", created_at := 0 }
      , { conversation_id := "c9", sender := MessageSender.bot
        , message := "What brand?", created_at := 1 } ] ∧
    buildTranscript (get_chat_history_with_agent "c9" storeTwo)
      = "USER: Fridge not cooling\x0aBOT: What brand?" := by
  decide

/-- Claim C10: a continuation payload appends no user message (the user
side of the store is untouched), never runs the terminal check (the
terminal flag, the counters, the persisted issues and the crash flag are
all unchanged), and the only effects are the agent reply to the replayed
chat history: it is sent, persisted as the one new message, and recorded
as the last agent question. -/
theorem continuation_C10 (o : Oracles) (s : SessState) (ch : String) :
    (chatStep o s (Query.continuation ch)).store
      = s.store ++ [{ conversation_id := s.conversationId
                    , sender := MessageSender.bot
                    , message := o.decodeInner (o.assistant ch)
                    , created_at := s.clock }] ∧
    ((chatStep o s (Query.continuation ch)).store.filter
        (fun mm => decide (mm.sender = MessageSender.user)))
      = s.store.filter (fun mm => decide (mm.sender = MessageSender.user)) ∧
    (chatStep o s (Query.continuation ch)).terminated = s.terminated ∧
    (chatStep o s (Query.continuation ch)).extractionCount = s.extractionCount ∧
    (chatStep o s (Query.continuation ch)).matchCount = s.matchCount ∧
    (chatStep o s (Query.continuation ch)).persistedIssues = s.persistedIssues ∧
    (chatStep o s (Query.continuation ch)).crashed = s.crashed ∧
    (chatStep o s (Query.continuation ch)).sent = s.sent ++ [OutMsg.turnText (o.assistant ch)] ∧
    (chatStep o s (Query.continuation ch)).lastAgentQuestion = some (o.assistant ch) := by
  refine ⟨rfl, ?_, rfl, rfl, rfl, rfl, rfl, rfl, rfl⟩
  simp [chatStep, agentTurn, List.filter_append]

end GoD
